import Mathlib

/-!
Verification of the schedule-override core of the wxcc repository.

The development shallowly embeds the TypeScript source:

* the date-fns primitives used by the source (parseISO, isBefore, isAfter,
  isWithinInterval, format with the pattern yyyy-MM-dd reverse-quote T
  reverse-quote HH:mm) are modelled over `Option Int` where an instant is an
  epoch count in seconds and `none` stands for the JavaScript Invalid Date
  (a Date whose time value is NaN);
* date-fns parseISO never throws: on unparsable input it returns an Invalid
  Date, and every comparison involving NaN is false.  The model mirrors that
  with `none` and comparison functions that return `false` on `none`;
* date-fns isWithinInterval (v2, the version the source is written against:
  the source wraps the call in try/catch, which only makes sense for v2)
  throws a RangeError unless start is at most end, modelled with `Except`;
* the JavaScript runtime keeps a local timezone: parseISO interprets
  timestamps without a designator in local time and format renders local
  wall-clock time.  The model threads the runtime offset (minutes east of
  UTC) as an explicit `tz` parameter, and the ambient clock reads
  (new Date()) as an explicit `now` parameter;
* the modelled subset of the ISO-8601 grammar accepted by parseISO is
  YYYY-MM-DD, optionally followed by T HH:mm, optional seconds, and an
  optional designator Z or a signed HH:mm offset, with calendar validation;
  other forms accepted by date-fns (week dates, ordinal dates, compact
  offsets, extended years) are outside the model and treated as invalid,
  as is the new Date fallback inside toWxccFormat;
* asynchronous vendor calls are modelled by passing the fetched container
  value explicitly; a whole-container PUT is modelled by returning the
  payload that would be submitted, so an `Except.error` result means that
  no write was attempted.
-/

/-! ## Calendar arithmetic (civil from/to days, Howard Hinnant algorithms) -/

/-- Leap-year test of the proleptic Gregorian calendar. -/
def isLeapYear (y : Nat) : Bool :=
  (y % 4 == 0 && y % 100 != 0) || y % 400 == 0

/-- Number of days in a month, matching the validation done by date-fns. -/
def daysInMonth (y m : Nat) : Nat :=
  if m == 2 then (if isLeapYear y then 29 else 28)
  else if m == 4 || m == 6 || m == 9 || m == 11 then 30
  else 31

/-- Days since 1970-01-01 of a civil date.  Division on Int is Euclidean,
hence floor division for the positive divisors used here. -/
def daysFromCivil (y m d : Int) : Int :=
  let y1 := if m ≤ 2 then y - 1 else y
  let era := y1 / 400
  let yoe := y1 - era * 400
  let mp := if m > 2 then m - 3 else m + 9
  let doy := (153 * mp + 2) / 5 + d - 1
  let doe := yoe * 365 + yoe / 4 - yoe / 100 + doy
  era * 146097 + doe - 719468

/-- Civil date (year, month, day) of a count of days since 1970-01-01. -/
def civilFromDays (z0 : Int) : Int × Int × Int :=
  let z := z0 + 719468
  let era := z / 146097
  let doe := z - era * 146097
  let yoe := (doe - doe / 1460 + doe / 36524 - doe / 146096) / 365
  let y := yoe + era * 400
  let doy := doe - (365 * yoe + yoe / 4 - yoe / 100)
  let mp := (5 * doy + 2) / 153
  let d := doy - (153 * mp + 2) / 5 + 1
  let m := if mp < 10 then mp + 3 else mp - 9
  (if m ≤ 2 then y + 1 else y, m, d)

/-! ## The date-fns model -/

/-- Value of a decimal digit character. -/
def digitVal? (c : Char) : Option Nat :=
  if c.isDigit then some (c.toNat - 48) else none

/-- Read exactly two decimal digits. -/
def read2 : List Char → Option (Nat × List Char)
  | c1 :: c2 :: rest => do
      let a ← digitVal? c1
      let b ← digitVal? c2
      pure (10 * a + b, rest)
  | _ => none

/-- Read exactly four decimal digits. -/
def read4 (l : List Char) : Option (Nat × List Char) := do
  let (hi, l1) ← read2 l
  let (lo, l2) ← read2 l1
  pure (100 * hi + lo, l2)

/-- Consume one expected character. -/
def expect (c : Char) : List Char → Option (List Char)
  | d :: rest => if d == c then some rest else none
  | [] => none

/-- Read the optional seconds component of a time. -/
def readSeconds : List Char → Option (Nat × List Char)
  | ':' :: l => do
      let (sc, l1) ← read2 l
      if 59 < sc then none else pure (sc, l1)
  | l => pure (0, l)

/-- Read the trailing timezone designator: nothing (local time, offset given
by the runtime timezone tz in minutes), Z, or a signed HH:mm offset.
Returns the offset east of UTC in seconds. -/
def readOffset (tz : Int) : List Char → Option Int
  | [] => pure (tz * 60)
  | ['Z'] => pure 0
  | c :: l =>
      if c == '+' || c == '-' then do
        let (oh, l1) ← read2 l
        let l2 ← expect ':' l1
        let (om, l3) ← read2 l2
        if 23 < oh || 59 < om then none
        else if l3.isEmpty then
          pure ((if c == '+' then 1 else -1) * ((oh : Int) * 3600 + (om : Int) * 60))
        else none
      else none

/-- Model of date-fns parseISO on the grammar described in the header.
Returns the epoch instant in seconds, or `none` for an Invalid Date.
A timestamp without a designator is interpreted in the runtime timezone,
and a date-only string is local midnight, as date-fns does. -/
def parseISO (tz : Int) (s : String) : Option Int := do
  let l := s.data
  let (y, l1) ← read4 l
  let l2 ← expect '-' l1
  let (mo, l3) ← read2 l2
  let l4 ← expect '-' l3
  let (d, l5) ← read2 l4
  if mo < 1 || 12 < mo then none
  else if d < 1 || daysInMonth y mo < d then none
  else
    let days := daysFromCivil y mo d
    match l5 with
    | [] => pure (days * 86400 - tz * 60)
    | 'T' :: l6 => do
        let (h, l7) ← read2 l6
        let l8 ← expect ':' l7
        let (mi, l9) ← read2 l8
        if 23 < h || 59 < mi then none
        else do
          let (sec, l10) ← readSeconds l9
          let off ← readOffset tz l10
          pure (days * 86400 + (h : Int) * 3600 + (mi : Int) * 60 + (sec : Int) - off)
    | _ => none

/-- Model of date-fns isBefore: getTime comparison, false when either side
is an Invalid Date (NaN comparisons are false). -/
def isBefore : Option Int → Option Int → Bool
  | some a, some b => a < b
  | _, _ => false

/-- Model of date-fns isAfter: getTime comparison, false when either side
is an Invalid Date. -/
def isAfter : Option Int → Option Int → Bool
  | some a, some b => b < a
  | _, _ => false

/-- Model of date-fns v2 isWithinInterval: throws a RangeError unless the
interval is valid (start at most end, neither NaN), otherwise the inclusive
membership test. -/
def isWithinInterval (t : Int) : Option Int → Option Int → Except Unit Bool
  | some s, some e => if s ≤ e then .ok (decide (s ≤ t ∧ t ≤ e)) else .error ()
  | _, _ => .error ()

/-- Two-digit zero-padded decimal rendering (date-fns tokens MM dd HH mm). -/
def pad2 (n : Nat) : String :=
  String.mk [Char.ofNat (48 + n / 10 % 10), Char.ofNat (48 + n % 10)]

/-- Rendering of the date-fns yyyy token: the calendar year in its era,
zero-padded to four digits, more digits only beyond the year 9999. -/
def yearString (y : Int) : String :=
  let n := (if y ≤ 0 then 1 - y else y).toNat
  if n < 10000 then
    String.mk [Char.ofNat (48 + n / 1000 % 10), Char.ofNat (48 + n / 100 % 10),
               Char.ofNat (48 + n / 10 % 10), Char.ofNat (48 + n % 10)]
  else toString n

/-- Model of date-fns format with the pattern yyyy-MM-dd T HH:mm applied to
a valid Date holding epoch second t: the instant is rendered as local
wall-clock time of the runtime timezone tz (minutes east of UTC). -/
def formatWxcc (tz : Int) (t : Int) : String :=
  let localSec := t + tz * 60
  let days := localSec / 86400
  let secOfDay := localSec % 86400
  let ymd := civilFromDays days
  let h := secOfDay / 3600
  let mi := secOfDay % 3600 / 60
  yearString ymd.1 ++ "-" ++ pad2 ymd.2.1.toNat ++ "-" ++ pad2 ymd.2.2.toNat ++
    "T" ++ pad2 h.toNat ++ ":" ++ pad2 mi.toNat

/-! ## src/utils/dateFormat.ts -/

/-- Embedding of toWxccFormat for string input: parseISO, then format with
the WxCC pattern; `none` models the thrown Invalid-date-input error.  The
new Date fallback of the source also fails on every input that the
modelled parseISO grammar rejects. -/
def toWxccFormat (tz : Int) (dateInput : String) : Option String :=
  (parseISO tz dateInput).map (formatWxcc tz)

/-- Embedding of isWxccFormat: the regex test for the exact pattern of four
digits, a dash, two digits, a dash, two digits, a T, two digits, a colon
and two digits. -/
def isWxccFormat (dateString : String) : Bool :=
  match dateString.data with
  | [a, b, c, d, s1, e, f, s2, g, h, s3, i, j, s4, k, l] =>
      a.isDigit && b.isDigit && c.isDigit && d.isDigit && s1 == '-' &&
      e.isDigit && f.isDigit && s2 == '-' && g.isDigit && h.isDigit &&
      s3 == 'T' && i.isDigit && j.isDigit && s4 == ':' && k.isDigit && l.isDigit
  | _ => false

/-! ## src/types/index.ts -/

/-- Derived lifecycle status of an agent (AgentStatus enum). -/
inductive AgentStatus where
  | ACTIVE
  | INACTIVE
  | SCHEDULED
  | EXPIRED
deriving DecidableEq, Repr

/-- Internal Agent record. -/
structure Agent where
  agentId : String
  containerId : String
  containerName : String
  workingHours : Bool
  startDateTime : String
  endDateTime : String
  status : AgentStatus
deriving DecidableEq, Repr

/-- Vendor override record (WxccOverride). -/
structure WxccOverride where
  name : String
  workingHours : Bool
  startDateTime : String
  endDateTime : String
deriving DecidableEq, Repr

/-- Vendor container record (WxccOverrideContainer). -/
structure WxccOverrideContainer where
  id : String
  organizationId : String
  version : Option Int
  name : String
  description : Option String
  timezone : Option String
  createdTime : String
  lastModifiedTime : String
  overrides : Option (List WxccOverride)
deriving DecidableEq, Repr

/-- One validation error (ScheduleValidationError). -/
structure ScheduleValidationError where
  field : String
  message : String
  agentId : Option String
  conflictingAgentId : Option String
deriving DecidableEq, Repr

/-- Validation outcome (ValidationResult). -/
structure ValidationResult where
  isValid : Bool
  errors : List ScheduleValidationError
deriving DecidableEq, Repr

/-- Candidate update (UpdateAgentRequest). -/
structure UpdateAgentRequest where
  workingHours : Bool
  startDateTime : String
  endDateTime : String
deriving DecidableEq, Repr

/-- Partial override data passed to WxccApiClient.updateOverride
(Partial WxccOverride): absent fields are `none`. -/
structure WxccOverridePatch where
  name : Option String
  workingHours : Option Bool
  startDateTime : Option String
  endDateTime : Option String
deriving DecidableEq, Repr

deriving instance DecidableEq for Except

/-- Typed failure taxonomy of the update workflow.  The source throws plain
Error objects whose messages distinguish the same three cases. -/
inductive UpdateErr where
  | validationFailed (errors : List ScheduleValidationError)
  | entryNotFound
  | invalidDate
deriving DecidableEq, Repr

/-! ## src/services/overrideService.ts -/

/-- Embedding of OverrideService.determineAgentStatus.  The source reads the
clock internally (new Date()); the model takes that instant as the explicit
parameter now, and the runtime timezone as tz. -/
def determineAgentStatus (tz now : Int) (startDateTime endDateTime : String)
    (workingHours : Bool) : AgentStatus :=
  let start := parseISO tz startDateTime
  let stop := parseISO tz endDateTime
  if !workingHours then .INACTIVE
  else if isBefore (some now) start then .SCHEDULED
  else if isAfter (some now) stop then .EXPIRED
  else .ACTIVE

/-- Embedding of OverrideService.mapWxccOverridesToAgents. -/
def mapWxccOverridesToAgents (tz now : Int) (c : WxccOverrideContainer) : List Agent :=
  (c.overrides.getD []).map fun o =>
    { agentId := o.name
      containerId := c.id
      containerName := c.name
      workingHours := o.workingHours
      startDateTime := o.startDateTime
      endDateTime := o.endDateTime
      status := determineAgentStatus tz now o.startDateTime o.endDateTime o.workingHours }

/-- The overlap test inside OverrideService.findScheduleConflict:
isBefore(updateStart, agentEnd) AND isAfter(updateEnd, agentStart). -/
def hasOverlap (updateStart updateEnd agentStart agentEnd : Option Int) : Bool :=
  isBefore updateStart agentEnd && isAfter updateEnd agentStart

/-- Embedding of OverrideService.findScheduleConflict: walk the agents in
order, skip the agent being updated and agents without workingHours, and
return the first agent whose window overlaps the candidate window. -/
def findScheduleConflict (tz : Int) (existingAgents : List Agent)
    (updatingAgentId : String) (updateData : UpdateAgentRequest) : Option Agent :=
  let updateStart := parseISO tz updateData.startDateTime
  let updateEnd := parseISO tz updateData.endDateTime
  existingAgents.find? fun agent =>
    agent.agentId != updatingAgentId && agent.workingHours &&
      hasOverlap updateStart updateEnd
        (parseISO tz agent.startDateTime) (parseISO tz agent.endDateTime)

/-- Embedding of OverrideService.validateAgentScheduleUpdate.  The container
fetched inside the source via getContainerById is the explicit parameter c.
The catch branch of the source that would emit a dateTime error is
unreachable, because date-fns parseISO returns an Invalid Date instead of
throwing and isAfter/isBefore/new Date() cannot throw either; it is
therefore absent from the model. -/
def validateAgentScheduleUpdate (tz now : Int) (c : WxccOverrideContainer)
    (agentId : String) (updateData : UpdateAgentRequest) : ValidationResult :=
  let startDate := parseISO tz updateData.startDateTime
  let endDate := parseISO tz updateData.endDateTime
  let dateErrors :=
    (if isAfter startDate endDate then
      [{ field := "startDateTime", message := "Start date must be before end date",
         agentId := some agentId, conflictingAgentId := none }]
     else ([] : List ScheduleValidationError)) ++
    (if isBefore endDate (some now) then
      [{ field := "endDateTime", message := "End date cannot be in the past",
         agentId := some agentId, conflictingAgentId := none }]
     else [])
  let allErrors :=
    dateErrors ++
    (if updateData.workingHours then
      match findScheduleConflict tz (mapWxccOverridesToAgents tz now c) agentId updateData with
      | some conflictingAgent =>
          [{ field := "schedule",
             message := "Schedule conflicts with agent " ++ conflictingAgent.agentId,
             agentId := some agentId,
             conflictingAgentId := some conflictingAgent.agentId }]
      | none => []
     else [])
  { isValid := allErrors.isEmpty, errors := allErrors }

/-- Embedding of OverrideService.isAgentCurrentlyActive: the RangeError of
isWithinInterval is caught and mapped to false. -/
def isAgentCurrentlyActive (tz : Int) (agent : Agent) (currentTime : Int) : Bool :=
  if !agent.workingHours then false
  else
    match isWithinInterval currentTime
        (parseISO tz agent.startDateTime) (parseISO tz agent.endDateTime) with
    | .ok b => b
    | .error _ => false

/-! ## src/services/wxccApiClient.ts, updateOverride workflow -/

/-- Overlay of a Partial WxccOverride onto an existing override by object
spread: present fields replace, absent fields keep the old value. -/
def applyPatch (o : WxccOverride) (p : WxccOverridePatch) : WxccOverride :=
  { name := p.name.getD o.name
    workingHours := p.workingHours.getD o.workingHours
    startDateTime := p.startDateTime.getD o.startDateTime
    endDateTime := p.endDateTime.getD o.endDateTime }

/-- Date normalization step of updateOverride: each date field is converted
with toWxccFormat when truthy (the empty string is falsy and skipped);
`none` models the exception thrown by toWxccFormat on an invalid date. -/
def convertOverrideDates (tz : Int) (o : WxccOverride) : Option WxccOverride :=
  match (if o.startDateTime == "" then some o.startDateTime
         else toWxccFormat tz o.startDateTime),
        (if o.endDateTime == "" then some o.endDateTime
         else toWxccFormat tz o.endDateTime) with
  | some s, some e => some { o with startDateTime := s, endDateTime := e }
  | _, _ => none

/-- Locate-and-replace step of updateOverride: findIndex on the override
name followed by in-place assignment at that index, modelled as replacement
of the first override whose name matches.  An absent name is the thrown
not-found error; a failing date conversion is the invalid-date error. -/
def spliceUpdate (tz : Int) (agentId : String) (p : WxccOverridePatch) :
    List WxccOverride → Except UpdateErr (List WxccOverride)
  | [] => .error .entryNotFound
  | o :: rest =>
      if o.name == agentId then
        match convertOverrideDates tz (applyPatch o p) with
        | some o2 => .ok (o2 :: rest)
        | none => .error .invalidDate
      else
        match spliceUpdate tz agentId p rest with
        | .ok r => .ok (o :: r)
        | .error e => .error e

/-- JavaScript numeric truthiness default: v or-else dflt substitutes dflt
for a missing value and for the falsy number 0. -/
def jsOrInt (v : Option Int) (dflt : Int) : Int :=
  match v with
  | some x => if x = 0 then dflt else x
  | none => dflt

/-- JavaScript string truthiness default: s or-else dflt substitutes dflt
for a missing value and for the falsy empty string. -/
def jsOrString (s : Option String) (dflt : String) : String :=
  match s with
  | some x => if x = "" then dflt else x
  | none => dflt

/-- Embedding of WxccApiClient.updateOverride.  The container fetched in
step 1 is the explicit parameter fullContainer, and cfgOrgId is
config.wxcc.organizationId.  The version and timezone defaults use the
JavaScript or-operator, which also replaces the falsy values 0 and the
empty string.  The returned value is the complete container payload
submitted to the vendor by the PUT in step 5, so an error result means
that no write was attempted. -/
def updateOverride (tz now : Int) (cfgOrgId : String)
    (fullContainer : WxccOverrideContainer) (agentId : String)
    (overrideData : WxccOverridePatch) : Except UpdateErr WxccOverrideContainer :=
  match spliceUpdate tz agentId overrideData (fullContainer.overrides.getD []) with
  | .error e => .error e
  | .ok newOverrides =>
      .ok { id := fullContainer.id
            organizationId := cfgOrgId
            version := some (jsOrInt fullContainer.version 1)
            name := fullContainer.name
            description := fullContainer.description
            timezone := some (jsOrString fullContainer.timezone "UTC")
            createdTime := fullContainer.createdTime
            lastModifiedTime := formatWxcc tz now
            overrides := some newOverrides }

/-- Embedding of OverrideService.updateAgentSchedule up to the vendor PUT:
validate first, throw on validation failure, then run the client
updateOverride workflow with name, workingHours and both dates supplied.
The container parameter c stands for the single vendor-side container state
read by both the validation fetch and the update fetch. -/
def updateAgentSchedule (tz now : Int) (cfgOrgId : String)
    (c : WxccOverrideContainer) (agentId : String)
    (updateData : UpdateAgentRequest) : Except UpdateErr WxccOverrideContainer :=
  let validationResult := validateAgentScheduleUpdate tz now c agentId updateData
  if !validationResult.isValid then .error (.validationFailed validationResult.errors)
  else
    updateOverride tz now cfgOrgId c agentId
      { name := some agentId
        workingHours := some updateData.workingHours
        startDateTime := some updateData.startDateTime
        endDateTime := some updateData.endDateTime }

/-- The condition under which the conflict scan counts an entry of the
container as conflicting with the candidate update: a different name, an
engaged flag, and overlapping windows under the overlap test of the code. -/
def conflictsWith (tz : Int) (u : UpdateAgentRequest) (target : String)
    (o : WxccOverride) : Prop :=
  o.name ≠ target ∧ o.workingHours = true ∧
    hasOverlap (parseISO tz u.startDateTime) (parseISO tz u.endDateTime)
      (parseISO tz o.startDateTime) (parseISO tz o.endDateTime) = true

instance (tz : Int) (u : UpdateAgentRequest) (target : String) (o : WxccOverride) :
    Decidable (conflictsWith tz u target o) := by
  unfold conflictsWith
  infer_instance

/-! ## Helper lemmas -/

/-- A successful find? splits the list at the first match. -/
theorem find?_split {α : Type} (p : α → Bool) :
    ∀ (l : List α) (a : α), l.find? p = some a →
      ∃ pre post, l = pre ++ a :: post ∧ p a = true ∧ ∀ b ∈ pre, p b = false := by
  intro l
  induction l with
  | nil => intro a h; simp [List.find?] at h
  | cons x xs ih =>
      intro a h
      cases hpx : p x with
      | true =>
          rw [List.find?_cons_of_pos _ hpx] at h
          obtain rfl : x = a := by injection h
          exact ⟨[], xs, rfl, hpx, by simp⟩
      | false =>
          rw [List.find?_cons_of_neg _ (by simp [hpx])] at h
          obtain ⟨pre, post, rfl, hpa, hpre⟩ := ih a h
          refine ⟨x :: pre, post, rfl, hpa, ?_⟩
          intro b hb
          rcases List.mem_cons.mp hb with rfl | hb2
          · exact hpx
          · exact hpre b hb2

/-- The boolean scan predicate of findScheduleConflict on a mapped agent
agrees with conflictsWith on the underlying override. -/
theorem scanPred_map (tz now : Int) (c : WxccOverrideContainer) (target : String)
    (u : UpdateAgentRequest) (o : WxccOverride) :
    ((fun agent =>
        agent.agentId != target && agent.workingHours &&
          hasOverlap (parseISO tz u.startDateTime) (parseISO tz u.endDateTime)
            (parseISO tz agent.startDateTime) (parseISO tz agent.endDateTime)) ∘
      (fun o : WxccOverride =>
        ({ agentId := o.name, containerId := c.id, containerName := c.name,
           workingHours := o.workingHours, startDateTime := o.startDateTime,
           endDateTime := o.endDateTime,
           status := determineAgentStatus tz now o.startDateTime o.endDateTime
             o.workingHours } : Agent))) o = true ↔
      conflictsWith tz u target o := by
  simp [conflictsWith, Function.comp, Bool.and_eq_true, bne_iff_ne]
  tauto

/-- findScheduleConflict over the mapped agents, in terms of the raw
override list. -/
theorem findScheduleConflict_map (tz now : Int) (c : WxccOverrideContainer)
    (target : String) (u : UpdateAgentRequest) :
    findScheduleConflict tz (mapWxccOverridesToAgents tz now c) target u =
      Option.map
        (fun o : WxccOverride =>
          ({ agentId := o.name, containerId := c.id, containerName := c.name,
             workingHours := o.workingHours, startDateTime := o.startDateTime,
             endDateTime := o.endDateTime,
             status := determineAgentStatus tz now o.startDateTime o.endDateTime
               o.workingHours } : Agent))
        ((c.overrides.getD []).find? fun o => decide (conflictsWith tz u target o)) := by
  unfold findScheduleConflict mapWxccOverridesToAgents
  rw [List.find?_map]
  congr 2
  funext o
  have h := scanPred_map tz now c target u o
  by_cases hc : conflictsWith tz u target o <;> simp_all

/-- Shape of the validation error list when the candidate update is engaged:
a segment of date errors followed by the outcome of the conflict scan. -/
theorem validate_errors_split (tz now : Int) (c : WxccOverrideContainer)
    (target : String) (u : UpdateAgentRequest) (hwh : u.workingHours = true) :
    ∃ derrs : List ScheduleValidationError,
      (validateAgentScheduleUpdate tz now c target u).errors =
        derrs ++
          (match (c.overrides.getD []).find? fun o => decide (conflictsWith tz u target o) with
           | some o =>
              [{ field := "schedule", message := "Schedule conflicts with agent " ++ o.name,
                 agentId := some target, conflictingAgentId := some o.name }]
           | none => []) ∧
      ∀ er ∈ derrs, er.field = "startDateTime" ∨ er.field = "endDateTime" := by
  have hmap := findScheduleConflict_map tz now c target u
  refine ⟨(if isAfter (parseISO tz u.startDateTime) (parseISO tz u.endDateTime) = true then
          [{ field := "startDateTime", message := "Start date must be before end date",
             agentId := some target, conflictingAgentId := none }]
        else []) ++
       (if isBefore (parseISO tz u.endDateTime) (some now) = true then
          [{ field := "endDateTime", message := "End date cannot be in the past",
             agentId := some target, conflictingAgentId := none }]
        else []), ?_, ?_⟩
  · simp only [validateAgentScheduleUpdate, hwh, if_true, hmap]
    cases hf : (c.overrides.getD []).find? fun o => decide (conflictsWith tz u target o) <;> simp
  · intro er her
    rcases List.mem_append.mp her with h | h
    · left
      revert h
      split
      · intro h
        rw [List.mem_singleton.mp h]
      · intro h
        exact absurd h (List.not_mem_nil er)
    · right
      revert h
      split
      · intro h
        rw [List.mem_singleton.mp h]
      · intro h
        exact absurd h (List.not_mem_nil er)

/-! ## Claim C1 -/

/-- Claim C1: for an engaged candidate update, the validator reports a
schedule field conflict error if and only if some entry of the container
other than the target (compared by exact name) is itself engaged and its
window overlaps the candidate window under the overlap test; disengaged
entries never produce a conflict, at most one schedule error is reported,
and the reported error names the first conflicting entry of the scan. -/
theorem conflict_scan_first_overlap (tz now : Int) (c : WxccOverrideContainer)
    (target : String) (u : UpdateAgentRequest) (hwh : u.workingHours = true) :
    (((validateAgentScheduleUpdate tz now c target u).errors.any
        fun er => er.field == "schedule") = true ↔
      ∃ o ∈ c.overrides.getD [], conflictsWith tz u target o) ∧
    ((validateAgentScheduleUpdate tz now c target u).errors.filter
        fun er => er.field == "schedule").length ≤ 1 ∧
    (∀ er ∈ (validateAgentScheduleUpdate tz now c target u).errors,
      er.field = "schedule" →
      ∃ pre o post, c.overrides.getD [] = pre ++ o :: post ∧
        conflictsWith tz u target o ∧ (∀ b ∈ pre, ¬ conflictsWith tz u target b) ∧
        er.conflictingAgentId = some o.name) := by
  obtain ⟨derrs, hd, hdf⟩ := validate_errors_split tz now c target u hwh
  have hdany : derrs.any (fun er => er.field == "schedule") = false := by
    rw [List.any_eq_false]
    intro er her
    rcases hdf er her with h | h <;> simp [h]
  have hdfil : derrs.filter (fun er => er.field == "schedule") = [] := by
    rw [List.filter_eq_nil_iff]
    intro er her
    rcases hdf er her with h | h <;> simp [h]
  cases hfind : (c.overrides.getD []).find? fun o => decide (conflictsWith tz u target o) with
  | none =>
      rw [hfind] at hd
      have hnone := List.find?_eq_none.mp hfind
      refine ⟨?_, ?_, ?_⟩
      · rw [hd]
        simp only [List.append_nil, hdany]
        constructor
        · intro h
          exact absurd h (by simp)
        · rintro ⟨o, ho, hco⟩
          exact absurd hco (by simpa using hnone o ho)
      · rw [hd]
        simp only [List.append_nil, hdfil, List.length_nil]
        omega
      · intro er her hf
        rw [hd] at her
        simp only [List.append_nil] at her
        rcases hdf er her with h | h <;> rw [h] at hf <;> exact absurd hf (by decide)
  | some o =>
      rw [hfind] at hd
      obtain ⟨pre, post, hsplit, hpo, hpre⟩ := find?_split _ _ _ hfind
      have hco : conflictsWith tz u target o := by simpa using hpo
      have hmem : o ∈ c.overrides.getD [] := by
        rw [hsplit]
        simp
      refine ⟨?_, ?_, ?_⟩
      · rw [hd]
        constructor
        · intro _
          exact ⟨o, hmem, hco⟩
        · intro _
          simp [List.any_append]
      · rw [hd, List.filter_append, hdfil]
        simp
      · intro er her hf
        rw [hd] at her
        rcases List.mem_append.mp her with h | h
        · exfalso
          rcases hdf er h with h2 | h2 <;> rw [h2] at hf <;> exact absurd hf (by decide)
        · have heq := List.mem_singleton.mp h
          refine ⟨pre, o, post, hsplit, hco, ?_, ?_⟩
          · intro b hb hcb
            have := hpre b hb
            simp_all
          · rw [heq]

/-- Witness for claim C1: an engaged candidate overlapping an engaged entry
of the container yields a schedule conflict error. -/
theorem conflict_scan_first_overlap_witness :
    ((validateAgentScheduleUpdate 0 1704067200
      { id := "c1", organizationId := "org1", version := none, name := "C",
        description := none, timezone := none, createdTime := "t0",
        lastModifiedTime := "t1",
        overrides := some
          [{ name := "alice", workingHours := true,
             startDateTime := "2099-01-01T08:00:00Z",
             endDateTime := "2099-01-01T16:00:00Z" }] }
      "bob"
      { workingHours := true, startDateTime := "2099-01-01T12:00:00Z",
        endDateTime := "2099-01-01T20:00:00Z" }).errors.any
      fun er => er.field == "schedule") = true :=
  (conflict_scan_first_overlap 0 1704067200
    { id := "c1", organizationId := "org1", version := none, name := "C",
      description := none, timezone := none, createdTime := "t0",
      lastModifiedTime := "t1",
      overrides := some
        [{ name := "alice", workingHours := true,
           startDateTime := "2099-01-01T08:00:00Z",
           endDateTime := "2099-01-01T16:00:00Z" }] }
    "bob"
    { workingHours := true, startDateTime := "2099-01-01T12:00:00Z",
      endDateTime := "2099-01-01T20:00:00Z" }
    rfl).1.mpr (by decide)

/-! ## Claim C2 -/

/-- Claim C2 counterexample: both timestamps of the entry parse, the engaged
flag is true and now is strictly after the parsed end, yet the derived
status is SCHEDULED rather than EXPIRED, because the code tests now < start
first and the window here is reversed (start after end).  This refutes the
claimed equivalence for elapsed status on entries whose parsed start
exceeds the parsed end. -/
theorem status_expired_iff_fails :
    parseISO 0 "2024-01-02T00:00:00Z" = some 1704153600 ∧
    parseISO 0 "2024-01-01T00:00:00Z" = some 1704067200 ∧
    (1704110400 : Int) > 1704067200 ∧
    determineAgentStatus 0 1704110400 "2024-01-02T00:00:00Z" "2024-01-01T00:00:00Z" true ≠
      AgentStatus.EXPIRED := by
  decide

/-- Claim C2 (amended): for every entry whose start and end timestamps both
parse and whose parsed start is at most the parsed end, the derived status
is INACTIVE iff the engaged flag is false, SCHEDULED iff the flag is true
and now precedes start, EXPIRED iff the flag is true and now is after end,
and ACTIVE iff the flag is true and now lies within the inclusive window;
both boundary instants classify as ACTIVE. -/
theorem status_classification (tz now : Int) (sStr eStr : String) (wh : Bool)
    (s e : Int) (hs : parseISO tz sStr = some s) (he : parseISO tz eStr = some e)
    (hord : s ≤ e) :
    (determineAgentStatus tz now sStr eStr wh = .INACTIVE ↔ wh = false) ∧
    (determineAgentStatus tz now sStr eStr wh = .SCHEDULED ↔ wh = true ∧ now < s) ∧
    (determineAgentStatus tz now sStr eStr wh = .EXPIRED ↔ wh = true ∧ e < now) ∧
    (determineAgentStatus tz now sStr eStr wh = .ACTIVE ↔ wh = true ∧ s ≤ now ∧ now ≤ e) := by
  simp only [determineAgentStatus, hs, he, isBefore, isAfter]
  cases wh <;> split_ifs <;> simp_all <;> omega

/-- Witness for claim C2: an engaged entry whose window contains now is
classified ACTIVE. -/
theorem status_classification_witness :
    determineAgentStatus 0 1704110400 "2024-01-01T00:00:00Z" "2024-01-02T00:00:00Z" true =
      AgentStatus.ACTIVE :=
  ((status_classification 0 1704110400 "2024-01-01T00:00:00Z" "2024-01-02T00:00:00Z" true
      1704067200 1704153600 (by decide) (by decide) (by decide)).2.2.2).mpr
    ⟨rfl, by decide, by decide⟩

/-! ## Claim C3 -/

/-- Claim C3 counterexample: a candidate whose start equals its end (both
parse, the window is in the future, the flag is disengaged) passes
validation with no error at all, in particular with no startDateTime error,
because the code uses the strict test isAfter rather than the claimed
non-strict start at-least end. -/
theorem equal_endpoints_accepted :
    parseISO 0 "2099-01-01T10:00:00Z" = some 4070944800 ∧
    validateAgentScheduleUpdate 0 1704067200
      { id := "c1", organizationId := "org1", version := none, name := "C",
        description := none, timezone := none, createdTime := "t0",
        lastModifiedTime := "t1", overrides := none }
      "agent1"
      { workingHours := false, startDateTime := "2099-01-01T10:00:00Z",
        endDateTime := "2099-01-01T10:00:00Z" } =
      { isValid := true, errors := [] } := by
  decide

/-- Claim C3 (amended): for every candidate update whose start and end
timestamps both parse, the validation result contains a startDateTime field
error if and only if the parsed start is strictly greater than the parsed
end; a candidate whose start equals its end produces no startDateTime
error. -/
theorem start_order_error_iff_strict (tz now : Int) (c : WxccOverrideContainer)
    (agentId : String) (u : UpdateAgentRequest) (s e : Int)
    (hs : parseISO tz u.startDateTime = some s) (he : parseISO tz u.endDateTime = some e) :
    ((validateAgentScheduleUpdate tz now c agentId u).errors.any
        fun er => er.field == "startDateTime") = true ↔ e < s := by
  simp only [validateAgentScheduleUpdate, hs, he, isAfter, isBefore, List.any_append]
  by_cases hlt : e < s
  · simp [hlt]
  · simp only [hlt, decide_False, if_false, List.any_nil, Bool.false_or, iff_false]
    simp only [Bool.or_eq_true, not_or]
    refine ⟨?_, ?_⟩ <;> (repeat' split) <;> simp_all

/-- Witness for claim C3: a candidate whose start is strictly after its end
receives a startDateTime error. -/
theorem start_order_error_iff_strict_witness :
    ((validateAgentScheduleUpdate 0 1704067200
      { id := "c1", organizationId := "org1", version := none, name := "C",
        description := none, timezone := none, createdTime := "t0",
        lastModifiedTime := "t1", overrides := none }
      "agent1"
      { workingHours := false, startDateTime := "2099-01-02T00:00:00Z",
        endDateTime := "2099-01-01T00:00:00Z" }).errors.any
      fun er => er.field == "startDateTime") = true :=
  (start_order_error_iff_strict 0 1704067200
    { id := "c1", organizationId := "org1", version := none, name := "C",
      description := none, timezone := none, createdTime := "t0",
      lastModifiedTime := "t1", overrides := none }
    "agent1"
    { workingHours := false, startDateTime := "2099-01-02T00:00:00Z",
      endDateTime := "2099-01-01T00:00:00Z" }
    4070995200 4070908800 (by decide) (by decide)).mpr (by decide)

/-! ## Claim C4 -/

/-- Claim C4: contrary to the claim, a candidate update whose timestamps
fail to parse produces NO dateTime error: date-fns parseISO returns an
Invalid Date instead of throwing, the catch branch that would emit the
dateTime error is unreachable, every NaN comparison is false, and the
conflict scan is not skipped but finds nothing.  The validator therefore
returns a valid result with an empty error list for malformed input, both
with the engaged flag off and with it on over an engaged container entry. -/
theorem malformed_dates_pass_validation :
    parseISO 0 "not-a-date" = none ∧ parseISO 0 "also-bad" = none ∧
    validateAgentScheduleUpdate 0 1704067200
      { id := "c1", organizationId := "org1", version := none, name := "C",
        description := none, timezone := none, createdTime := "t0",
        lastModifiedTime := "t1", overrides := none }
      "agent1"
      { workingHours := false, startDateTime := "not-a-date",
        endDateTime := "also-bad" } = { isValid := true, errors := [] } ∧
    validateAgentScheduleUpdate 0 1704067200
      { id := "c1", organizationId := "org1", version := none, name := "C",
        description := none, timezone := none, createdTime := "t0",
        lastModifiedTime := "t1",
        overrides := some
          [{ name := "alice", workingHours := true,
             startDateTime := "2099-01-01T08:00:00Z",
             endDateTime := "2099-01-01T16:00:00Z" }] }
      "agent1"
      { workingHours := true, startDateTime := "not-a-date",
        endDateTime := "also-bad" } = { isValid := true, errors := [] } := by
  decide

/-! ## Claim C5 -/

/-- Claim C5 counterexample: an engaged entry with malformed timestamps is
classified ACTIVE, not INACTIVE: both the now-before-start and the
now-after-end comparisons are false on an Invalid Date, so the code falls
through to ACTIVE. -/
theorem engaged_malformed_entry_is_active :
    parseISO 0 "not-a-date" = none ∧
    determineAgentStatus 0 1704110400 "not-a-date" "not-a-date" true = AgentStatus.ACTIVE := by
  decide

/-- Claim C5 (amended): classification of an entry with a malformed start
or end timestamp never throws; the derived isLive boolean is false; the
derived state is INACTIVE when the engaged flag is false, but an engaged
entry with both timestamps malformed is classified ACTIVE rather than
disengaged. -/
theorem malformed_entry_classification (tz now : Int) (a : Agent)
    (hbad : parseISO tz a.startDateTime = none ∨ parseISO tz a.endDateTime = none) :
    isAgentCurrentlyActive tz a now = false ∧
    (a.workingHours = false →
      determineAgentStatus tz now a.startDateTime a.endDateTime a.workingHours =
        AgentStatus.INACTIVE) ∧
    (a.workingHours = true → parseISO tz a.startDateTime = none →
      parseISO tz a.endDateTime = none →
      determineAgentStatus tz now a.startDateTime a.endDateTime a.workingHours =
        AgentStatus.ACTIVE) := by
  refine ⟨?_, ?_, ?_⟩
  · unfold isAgentCurrentlyActive
    cases hw : a.workingHours
    · simp
    · rcases hbad with h | h
      · rw [h]
        cases parseISO tz a.endDateTime <;> simp [isWithinInterval]
      · rw [h]
        cases parseISO tz a.startDateTime <;> simp [isWithinInterval]
  · intro hw
    simp [determineAgentStatus, hw]
  · intro hw h1 h2
    simp [determineAgentStatus, hw, h1, h2, isBefore, isAfter]

/-- Witness for claim C5: an engaged entry with malformed timestamps is
not live. -/
theorem malformed_entry_classification_witness :
    isAgentCurrentlyActive 0
      { agentId := "a1", containerId := "c1", containerName := "C",
        workingHours := true, startDateTime := "not-a-date",
        endDateTime := "not-a-date", status := AgentStatus.ACTIVE } 1704110400 = false :=
  (malformed_entry_classification 0 1704110400
    { agentId := "a1", containerId := "c1", containerName := "C",
      workingHours := true, startDateTime := "not-a-date",
      endDateTime := "not-a-date", status := AgentStatus.ACTIVE }
    (Or.inl (by decide))).1

/-! ## Claim C6 -/

/-- Claim C6: for all time windows with well-ordered endpoints that share
only a boundary instant (the end of one equals the start of the other),
the overlap test used by the conflict scan returns false: touching windows
never count as overlapping. -/
theorem touching_windows_never_overlap (aStart aEnd bStart bEnd : Int)
    (ha : aStart < aEnd) (hb : bStart < bEnd)
    (htouch : aEnd = bStart ∨ bEnd = aStart) :
    hasOverlap (some aStart) (some aEnd) (some bStart) (some bEnd) = false := by
  rcases htouch with h | h <;>
    simp only [hasOverlap, isBefore, isAfter, Bool.and_eq_false_iff,
      decide_eq_false_iff_not] <;> omega

/-- Witness for claim C6: two concrete windows touching at instant 10 do
not overlap. -/
theorem touching_windows_never_overlap_witness :
    hasOverlap (some 0) (some 10) (some 10) (some 20) = false :=
  touching_windows_never_overlap 0 10 10 20 (by decide) (by decide) (Or.inl rfl)

/-! ## Claim C7 -/

/-- When no override carries the requested name, the locate step fails with
the not-found error. -/
theorem spliceUpdate_of_absent (tz : Int) (agentId : String) (p : WxccOverridePatch) :
    ∀ l : List WxccOverride, (∀ o ∈ l, o.name ≠ agentId) →
      spliceUpdate tz agentId p l = .error .entryNotFound := by
  intro l
  induction l with
  | nil => intro _; rfl
  | cons o rest ih =>
      intro h
      have hn : (o.name == agentId) = false := by
        simpa using h o (List.mem_cons_self o rest)
      simp only [spliceUpdate, hn, Bool.false_eq_true, if_false]
      rw [ih fun b hb => h b (List.mem_cons_of_mem o hb)]

/-- Claim C7 counterexample: an update request naming an absent entry but
carrying an invalid schedule fails with the validation error, not with the
not-found error, because the workflow validates before it looks the entry
up; the claimed fail-with-EntryNotFound for every absent name, and the
claimed lookup-before-validation order, are both refuted. -/
theorem absent_entry_with_invalid_payload_fails_validation :
    ((some
        [{ name := "alice", workingHours := true,
           startDateTime := "2099-01-01T08:00:00Z",
           endDateTime := "2099-01-01T16:00:00Z" }] :
        Option (List WxccOverride)).getD []).all (fun o => o.name != "bob") = true ∧
    updateAgentSchedule 0 1704067200 "org1"
      { id := "c1", organizationId := "org1", version := none, name := "C",
        description := none, timezone := none, createdTime := "t0",
        lastModifiedTime := "t1",
        overrides := some
          [{ name := "alice", workingHours := true,
             startDateTime := "2099-01-01T08:00:00Z",
             endDateTime := "2099-01-01T16:00:00Z" }] }
      "bob"
      { workingHours := false, startDateTime := "2024-01-02T00:00:00Z",
        endDateTime := "2024-01-01T00:00:00Z" } =
      .error (.validationFailed
        [{ field := "startDateTime", message := "Start date must be before end date",
           agentId := some "bob", conflictingAgentId := none }]) ∧
    updateAgentSchedule 0 1704067200 "org1"
      { id := "c1", organizationId := "org1", version := none, name := "C",
        description := none, timezone := none, createdTime := "t0",
        lastModifiedTime := "t1",
        overrides := some
          [{ name := "alice", workingHours := true,
             startDateTime := "2099-01-01T08:00:00Z",
             endDateTime := "2099-01-01T16:00:00Z" }] }
      "bob"
      { workingHours := false, startDateTime := "2024-01-02T00:00:00Z",
        endDateTime := "2024-01-01T00:00:00Z" } ≠
      .error .entryNotFound := by
  decide

/-- Claim C7 (amended): for every update request that passes schedule
validation and whose entry name does not occur (by exact name match) in the
fetched container, the workflow fails with the not-found error and no write
is attempted (the error result means the PUT payload is never built); the
entry lookup happens after schedule validation, not before it. -/
theorem absent_entry_not_found_after_validation (tz now : Int) (cfgOrgId : String)
    (c : WxccOverrideContainer) (agentId : String) (u : UpdateAgentRequest)
    (hval : (validateAgentScheduleUpdate tz now c agentId u).isValid = true)
    (habs : ∀ o ∈ c.overrides.getD [], o.name ≠ agentId) :
    updateAgentSchedule tz now cfgOrgId c agentId u = .error .entryNotFound := by
  simp only [updateAgentSchedule, hval, Bool.not_true, Bool.false_eq_true, if_false]
  unfold updateOverride
  rw [spliceUpdate_of_absent tz agentId _ _ habs]

/-- Witness for claim C7: a valid update for an absent entry name fails
with the not-found error. -/
theorem absent_entry_not_found_after_validation_witness :
    updateAgentSchedule 0 1704067200 "org1"
      { id := "c1", organizationId := "org1", version := none, name := "C",
        description := none, timezone := none, createdTime := "t0",
        lastModifiedTime := "t1",
        overrides := some
          [{ name := "alice", workingHours := true,
             startDateTime := "2099-01-01T08:00:00Z",
             endDateTime := "2099-01-01T16:00:00Z" }] }
      "bob"
      { workingHours := false, startDateTime := "2099-01-02T08:00:00Z",
        endDateTime := "2099-01-02T16:00:00Z" } = .error .entryNotFound :=
  absent_entry_not_found_after_validation 0 1704067200 "org1"
    { id := "c1", organizationId := "org1", version := none, name := "C",
      description := none, timezone := none, createdTime := "t0",
      lastModifiedTime := "t1",
      overrides := some
        [{ name := "alice", workingHours := true,
           startDateTime := "2099-01-01T08:00:00Z",
           endDateTime := "2099-01-01T16:00:00Z" }] }
    "bob"
    { workingHours := false, startDateTime := "2099-01-02T08:00:00Z",
      endDateTime := "2099-01-02T16:00:00Z" }
    (by decide) (by decide)

/-! ## Claim C8 -/

/-- A successful splice decomposes the override list at the first name
match and replaces exactly that element. -/
theorem spliceUpdate_ok_split (tz : Int) (agentId : String) (p : WxccOverridePatch) :
    ∀ (l r : List WxccOverride), spliceUpdate tz agentId p l = .ok r →
      ∃ pre old post o2, l = pre ++ old :: post ∧
        (∀ b ∈ pre, b.name ≠ agentId) ∧ old.name = agentId ∧
        convertOverrideDates tz (applyPatch old p) = some o2 ∧
        r = pre ++ o2 :: post := by
  intro l
  induction l with
  | nil => intro r h; exact absurd h (by simp [spliceUpdate])
  | cons o rest ih =>
      intro r h
      by_cases hn : o.name = agentId
      · rw [spliceUpdate, if_pos (by simpa using hn)] at h
        cases hc : convertOverrideDates tz (applyPatch o p) with
        | none => rw [hc] at h; exact absurd h (by simp)
        | some o2 =>
            rw [hc] at h
            obtain rfl : o2 :: rest = r := by injection h
            exact ⟨[], o, rest, o2, rfl, by simp, hn, hc, rfl⟩
      · rw [spliceUpdate, if_neg (by simpa using hn)] at h
        cases hrec : spliceUpdate tz agentId p rest with
        | error e => rw [hrec] at h; exact absurd h (by simp)
        | ok r2 =>
            rw [hrec] at h
            obtain rfl : o :: r2 = r := by injection h
            obtain ⟨pre, old, post, o2, hl, hpre, hold, hc, hr⟩ := ih r2 hrec
            refine ⟨o :: pre, old, post, o2, by simp [hl], ?_, hold, hc, by simp [hr]⟩
            intro b hb
            rcases List.mem_cons.mp hb with rfl | hb2
            · exact hn
            · exact hpre b hb2

/-- Date conversion touches only the date fields. -/
theorem convertOverrideDates_fields (tz : Int) (o o2 : WxccOverride)
    (h : convertOverrideDates tz o = some o2) :
    o2.name = o.name ∧ o2.workingHours = o.workingHours := by
  unfold convertOverrideDates at h
  cases hs : (if o.startDateTime == "" then some o.startDateTime
              else toWxccFormat tz o.startDateTime) with
  | none =>
      rw [hs] at h
      cases (if o.endDateTime == "" then some o.endDateTime
             else toWxccFormat tz o.endDateTime) <;> exact absurd h (by simp)
  | some s =>
      rw [hs] at h
      cases he : (if o.endDateTime == "" then some o.endDateTime
                  else toWxccFormat tz o.endDateTime) with
      | none => rw [he] at h; exact absurd h (by simp)
      | some e =>
          rw [he] at h
          obtain rfl : ({ o with startDateTime := s, endDateTime := e } : WxccOverride) = o2 := by
            injection h
          exact ⟨rfl, rfl⟩

/-- Claim C8 counterexample: a successful update against a container whose
fetched organization id is orgA, under a configuration whose organization
id is orgB, submits a payload carrying orgB: the payload organization id is
taken from configuration, not from the fetched container as claimed. -/
theorem payload_orgid_from_config_not_container :
    updateAgentSchedule 0 1704067200 "orgB"
      { id := "c1", organizationId := "orgA", version := some 7, name := "C",
        description := some "d", timezone := some "Europe/Rome", createdTime := "t0",
        lastModifiedTime := "t1",
        overrides := some
          [{ name := "zed", workingHours := false,
             startDateTime := "2099-03-01T08:00:00Z",
             endDateTime := "2099-03-01T16:00:00Z" },
           { name := "alice", workingHours := true,
             startDateTime := "2099-01-01T08:00:00Z",
             endDateTime := "2099-01-01T16:00:00Z" }] }
      "alice"
      { workingHours := true, startDateTime := "2099-02-01T09:30:45Z",
        endDateTime := "2099-02-01T17:00:00Z" } =
      .ok
        { id := "c1", organizationId := "orgB", version := some 7, name := "C",
          description := some "d", timezone := some "Europe/Rome", createdTime := "t0",
          lastModifiedTime := "2024-01-01T00:00",
          overrides := some
            [{ name := "zed", workingHours := false,
               startDateTime := "2099-03-01T08:00:00Z",
               endDateTime := "2099-03-01T16:00:00Z" },
             { name := "alice", workingHours := true,
               startDateTime := "2099-02-01T09:30",
               endDateTime := "2099-02-01T17:00" }] } ∧
    ("orgB" : String) ≠ "orgA" := by
  decide

/-- Claim C8 (amended): every successful update submits a payload holding
the updated entry at the index it occupied in the fetched container with
its name preserved, every other entry unchanged and in the original order,
the same id, name, description and creation time as the fetched container,
the fetched timezone with UTC substituted when it is absent or empty, the
fetched version with 1 substituted when it is absent or zero (JavaScript
or-defaults), a freshly stamped wire-format last-modified time, and an
organization id taken from configuration rather than from the fetched
container. -/
theorem payload_frame_conditions (tz now : Int) (cfgOrgId : String)
    (c : WxccOverrideContainer) (agentId : String) (u : UpdateAgentRequest)
    (payload : WxccOverrideContainer)
    (h : updateAgentSchedule tz now cfgOrgId c agentId u = .ok payload) :
    payload.id = c.id ∧
    payload.organizationId = cfgOrgId ∧
    payload.version = some (jsOrInt c.version 1) ∧
    payload.name = c.name ∧
    payload.description = c.description ∧
    payload.timezone = some (jsOrString c.timezone "UTC") ∧
    payload.createdTime = c.createdTime ∧
    payload.lastModifiedTime = formatWxcc tz now ∧
    ∃ pre old post o2, c.overrides.getD [] = pre ++ old :: post ∧
      (∀ b ∈ pre, b.name ≠ agentId) ∧ old.name = agentId ∧
      o2.name = agentId ∧ o2.workingHours = u.workingHours ∧
      payload.overrides = some (pre ++ o2 :: post) := by
  simp only [updateAgentSchedule] at h
  cases hval : (validateAgentScheduleUpdate tz now c agentId u).isValid with
  | false => rw [hval] at h; exact absurd h (by simp)
  | true =>
      rw [hval] at h
      simp only [Bool.not_true, Bool.false_eq_true, if_false] at h
      unfold updateOverride at h
      cases hsp : spliceUpdate tz agentId
          { name := some agentId, workingHours := some u.workingHours,
            startDateTime := some u.startDateTime, endDateTime := some u.endDateTime }
          (c.overrides.getD []) with
      | error e => rw [hsp] at h; exact absurd h (by simp)
      | ok newOverrides =>
          rw [hsp] at h
          obtain ⟨pre, old, post, o2, hl, hpre, hold, hconv, hr⟩ :=
            spliceUpdate_ok_split _ _ _ _ _ hsp
          obtain ⟨hn2, hw2⟩ := convertOverrideDates_fields _ _ _ hconv
          obtain rfl : _ = payload := by injection h
          refine ⟨rfl, rfl, rfl, rfl, rfl, rfl, rfl, rfl,
            pre, old, post, o2, hl, hpre, hold, ?_, ?_, by rw [hr]⟩
          · rw [hn2]
            rfl
          · rw [hw2]
            rfl

/-- Witness for claim C8: the concrete successful update of the C8
counterexample satisfies the frame conditions; in particular the payload
keeps the container id and carries the configured organization id. -/
theorem payload_frame_conditions_witness :
    ({ id := "c1", organizationId := "orgB", version := some 7, name := "C",
       description := some "d", timezone := some "Europe/Rome", createdTime := "t0",
       lastModifiedTime := "2024-01-01T00:00",
       overrides := some
         [{ name := "zed", workingHours := false,
            startDateTime := "2099-03-01T08:00:00Z",
            endDateTime := "2099-03-01T16:00:00Z" },
          { name := "alice", workingHours := true,
            startDateTime := "2099-02-01T09:30",
            endDateTime := "2099-02-01T17:00" }] } : WxccOverrideContainer).id = "c1" ∧
    ({ id := "c1", organizationId := "orgB", version := some 7, name := "C",
       description := some "d", timezone := some "Europe/Rome", createdTime := "t0",
       lastModifiedTime := "2024-01-01T00:00",
       overrides := some
         [{ name := "zed", workingHours := false,
            startDateTime := "2099-03-01T08:00:00Z",
            endDateTime := "2099-03-01T16:00:00Z" },
          { name := "alice", workingHours := true,
            startDateTime := "2099-02-01T09:30",
            endDateTime := "2099-02-01T17:00" }] } : WxccOverrideContainer).organizationId =
      "orgB" := by
  have h := payload_frame_conditions 0 1704067200 "orgB"
    { id := "c1", organizationId := "orgA", version := some 7, name := "C",
      description := some "d", timezone := some "Europe/Rome", createdTime := "t0",
      lastModifiedTime := "t1",
      overrides := some
        [{ name := "zed", workingHours := false,
           startDateTime := "2099-03-01T08:00:00Z",
           endDateTime := "2099-03-01T16:00:00Z" },
         { name := "alice", workingHours := true,
           startDateTime := "2099-01-01T08:00:00Z",
           endDateTime := "2099-01-01T16:00:00Z" }] }
    "alice"
    { workingHours := true, startDateTime := "2099-02-01T09:30:45Z",
      endDateTime := "2099-02-01T17:00:00Z" }
    { id := "c1", organizationId := "orgB", version := some 7, name := "C",
      description := some "d", timezone := some "Europe/Rome", createdTime := "t0",
      lastModifiedTime := "2024-01-01T00:00",
      overrides := some
        [{ name := "zed", workingHours := false,
           startDateTime := "2099-03-01T08:00:00Z",
           endDateTime := "2099-03-01T16:00:00Z" },
         { name := "alice", workingHours := true,
           startDateTime := "2099-02-01T09:30",
           endDateTime := "2099-02-01T17:00" }] }
    (by decide)
  exact ⟨h.1, h.2.1⟩

/-! ## Claim C9 -/

/-- Claim C9: the wire-format normalizer returns a string matching the
claimed pattern and the validator accepts both renderings below, but the
value rendered is the local wall-clock time of the runtime timezone, not a
UTC-normalized rendering: with a runtime offset of plus 300 minutes the
input instant 2024-01-15T09:30Z is rendered as its plus-five wall time
2024-01-15T14:30, which differs from the UTC rendering 2024-01-15T09:30
obtained only when the runtime offset is zero.  This evaluates the code at
the failing input of the claim (and of the dateFormat test of the
repository, which expects the UTC rendering for an offset-bearing input). -/
theorem wire_format_renders_local_time :
    toWxccFormat 300 "2024-01-15T14:30:00+05:00" = some "2024-01-15T14:30" ∧
    toWxccFormat 0 "2024-01-15T14:30:00+05:00" = some "2024-01-15T09:30" ∧
    ("2024-01-15T14:30" : String) ≠ "2024-01-15T09:30" ∧
    isWxccFormat "2024-01-15T14:30" = true ∧
    isWxccFormat "2024-01-15T09:30" = true ∧
    isWxccFormat "2024-01-15T09:30:45" = false := by
  decide

/-! ## Claim C10 -/

/-- Claim C10: the currently-live check is total and returns false for
every entry whose window cannot form a valid interval: whenever either
timestamp fails to parse, or both parse with the start after the end, the
interval-membership error branch is taken, caught, and mapped to false. -/
theorem isActive_false_on_invalid_window (tz now : Int) (a : Agent)
    (hbad : parseISO tz a.startDateTime = none ∨ parseISO tz a.endDateTime = none ∨
      ∃ s e, parseISO tz a.startDateTime = some s ∧ parseISO tz a.endDateTime = some e ∧
        e < s) :
    isAgentCurrentlyActive tz a now = false := by
  unfold isAgentCurrentlyActive
  cases hw : a.workingHours
  · simp
  · rcases hbad with h | h | ⟨s, e, hs, he, hlt⟩
    · rw [h]
      cases parseISO tz a.endDateTime <;> simp [isWithinInterval]
    · rw [h]
      cases parseISO tz a.startDateTime <;> simp [isWithinInterval]
    · rw [hs, he]
      simp [isWithinInterval, if_neg (not_le.mpr hlt)]

/-- Witness for claim C10: an engaged entry with a reversed window is not
live. -/
theorem isActive_false_on_invalid_window_witness :
    isAgentCurrentlyActive 0
      { agentId := "a1", containerId := "c1", containerName := "C",
        workingHours := true, startDateTime := "2024-01-02T00:00:00Z",
        endDateTime := "2024-01-01T00:00:00Z", status := AgentStatus.ACTIVE }
      1704110400 = false :=
  isActive_false_on_invalid_window 0 1704110400
    { agentId := "a1", containerId := "c1", containerName := "C",
      workingHours := true, startDateTime := "2024-01-02T00:00:00Z",
      endDateTime := "2024-01-01T00:00:00Z", status := AgentStatus.ACTIVE }
    (Or.inr (Or.inr ⟨1704153600, 1704067200, by decide, by decide, by decide⟩))
